import Mathlib

set_option autoImplicit false

/-!
Shallow embedding of the minimal external-store core
(`src/src/lib/index.ts` and the variant in `src/unnamed/part_001`).

JavaScript objects are modelled as ordered association lists from string
keys to `Value`s; the object spread `{...a, ...b}` used by `setState` is
modelled by `spread`.  Listeners are identified by natural numbers; the
JS `Set` of listeners is a duplicate-free insertion-ordered list.  Code
that may throw is modelled with `Except String`.
-/

namespace ZustandClone

/-- JavaScript values stored in the state object: numbers, strings and
nested objects (an object is an ordered field list). -/
inductive Value where
  | num : Int → Value
  | str : String → Value
  | vobj : List (String × Value) → Value

/-- A JavaScript object: ordered list of (key, value) fields. -/
abbrev Obj : Type := List (String × Value)

/-- The empty object literal, the placeholder `{} as T` that the store
cell holds before the initializer returns. -/
def emptyObj : Obj := []

/-- Property lookup on an object: value of the first field named `k`. -/
def olookup (k : String) : Obj → Option Value
  | [] => none
  | (k₁, v) :: rest => if k = k₁ then some v else olookup k rest

/-- JavaScript-style "first defined wins from the right": helper used to
state the shallow-merge lookup law. -/
def jsOr (x y : Option Value) : Option Value :=
  match x with
  | some v => some v
  | none => y

/-- Object spread `{...a, ...b}`: keys of `a` in order, each taking `b`'s
value when `b` also has the key, followed by the keys of `b` that `a`
lacks, in `b`'s order.  Top-level keys only: values are never merged
recursively. -/
def spread (a b : Obj) : Obj :=
  a.map (fun kv => (kv.1, (olookup kv.1 b).getD kv.2))
    ++ b.filter (fun kv => (olookup kv.1 a).isNone)

/-- A store instance: the current state cell and the registered
listeners (insertion-ordered, duplicate-free as maintained by
`subscribe`). -/
structure Store where
  state : Obj
  listeners : List Nat

/-- The argument to `setState`: either a plain value holding the fields
to merge, or an updater function evaluated against the current state
(which may throw, modelled by `Except`).  This mirrors the
`typeof newState === "function"` runtime check. -/
inductive Update where
  | value : Obj → Update
  | fn : (Obj → Except String Obj) → Update

/-- The state transition of `setState`, before notification: obtain the
fields to merge (calling the updater when the argument is a function)
and spread them onto the current state.  An updater throw aborts before
the assignment. -/
def applyUpdate (u : Update) (st : Obj) : Except String Obj :=
  match u with
  | .value p => .ok (spread st p)
  | .fn f =>
    match f st with
    | .error e => .error e
    | .ok p => .ok (spread st p)

/-- Observable events of one `setState` call: the commit of the new
state reference, and each listener invocation paired with the value
`getState` returns at that moment. -/
inductive Event where
  | commit : Obj → Event
  | invoke : Nat → Obj → Event

/-- Notification loop `listeners.forEach((l) => l())`, run after the
commit so `getState` already returns `st` inside every callback.
`throws l = true` models listener `l` raising: `forEach` then stops and
the exception propagates, so later listeners are not invoked. -/
def notifyTrace (throws : Nat → Bool) (st : Obj) : List Nat → List Event × Bool
  | [] => ([], false)
  | l :: rest =>
    if throws l then ([Event.invoke l st], true)
    else
      let (es, err) := notifyTrace throws st rest
      (Event.invoke l st :: es, err)

/-- The `setState` operation: merge, assign the new state reference,
then notify every registered listener.  Returns the store afterwards,
the trace of observable events, and whether an exception propagated to
the caller.  When the updater throws, the state is untouched and no
listener runs. -/
def setState (u : Update) (throws : Nat → Bool) (s : Store) :
    Store × List Event × Bool :=
  match applyUpdate u s.state with
  | .error _ => (s, [], true)
  | .ok st =>
    let (es, err) := notifyTrace throws st s.listeners
    ({ s with state := st }, Event.commit st :: es, err)

/-- Read accessor `getState`: returns the current state reference. -/
def getState (s : Store) : Obj := s.state

/-- Registration `listeners.add(callback)`: a JS `Set` ignores an
element already present and otherwise appends in insertion order. -/
def subscribe (l : Nat) (s : Store) : Store :=
  if l ∈ s.listeners then s
  else { s with listeners := s.listeners ++ [l] }

/-- The unsubscribe closure returned by `subscribe`:
`listeners.delete(callback)` removes the registration of `l` and is a
no-op when `l` is not registered. -/
def unsubscribe (l : Nat) (s : Store) : Store :=
  { s with listeners := s.listeners.filter (fun x => x ≠ l) }

/-- Listener identifiers appearing in an event trace, in invocation
order. -/
def invokedIds (es : List Event) : List Nat :=
  es.filterMap (fun e =>
    match e with
    | .invoke l _ => some l
    | .commit _ => none)

/-- The initializer as a program interacting with the store under
construction through the `set` and `get` handles it receives:
`setCall u k` performs `set(u)` and continues with `k`; `getCall f`
reads the cell and continues with the value; `ret v` returns `v`;
`fail e` models the initializer throwing. -/
inductive InitProg where
  | ret : Obj → InitProg
  | setCall : Update → InitProg → InitProg
  | getCall : (Obj → InitProg) → InitProg
  | fail : String → InitProg

/-- Running the initializer against the store cell (the listener set is
still empty at this point, so its `set` calls notify nobody).  Returns
the cell contents after the initializer's own `set` calls together with
the initializer's return value, or the error it threw. -/
def runInit : InitProg → Obj → Except String (Obj × Obj)
  | .ret v, cell => .ok (cell, v)
  | .setCall u k, cell =>
    match applyUpdate u cell with
    | .error e => .error e
    | .ok cell₁ => runInit k cell₁
  | .getCall f, cell => runInit (f cell) cell
  | .fail e, _ => .error e

/-- The store factory `createStoreApi`: start from the `{} as T`
placeholder, run the initializer, then assign its return value to the
cell (`state = initFunction(setState, getState)`), discarding whatever
the initializer's own `set` calls had merged into the cell.  An
initializer throw propagates and no store is produced. -/
def createStoreApi (init : InitProg) : Except String Store :=
  match runInit init emptyObj with
  | .error e => .error e
  | .ok (_, ret) => .ok { state := ret, listeners := [] }

/-- The exported factory `create`: builds the store API (then closes the
returned hook over it).  The hook itself is modelled by `useStore`
below, applied to the API this returns. -/
def create (init : InitProg) : Except String Store :=
  match createStoreApi init with
  | .error e => .error e
  | .ok api => .ok api

/-- Snapshot read `getSnapshot(selector) = selector(getState())`. -/
def getSnapshot {U : Type} (selector : Obj → U) (s : Store) : U :=
  selector (getState s)

/-- Modelled from the spec: the host framework's external-store hook is
not part of this repository; per the host contract, during a render it
returns the result of calling the snapshot function it was given. -/
def useSyncExternalStore {S U : Type} (_subscribeFn : S)
    (getSnap : Unit → U) (_getServerSnap : Unit → U) : U :=
  getSnap ()

/-- The hook returned by `create` in `src/src/lib/index.ts`: requires a
selector and feeds `() => storeApi.getSnapshot(selector)` to the host
hook as both snapshot slots. -/
def useStore {U : Type} (api : Store) (selector : Obj → U) : U :=
  useSyncExternalStore (fun l => subscribe l api)
    (fun _ => getSnapshot selector api)
    (fun _ => getSnapshot selector api)

/-- The hook of the `src/unnamed/part_001` variant, where the selector
is optional (`selector?`) and `U` defaults to `T`: the snapshot slot
computes `selector ? selector(getState()) : getState()`. -/
def useStoreOpt (api : Store) (selector : Option (Obj → Obj)) : Obj :=
  useSyncExternalStore (fun l => subscribe l api)
    (fun _ =>
      match selector with
      | some f => f (getState api)
      | none => getState api)
    (fun _ =>
      match selector with
      | some f => f (getState api)
      | none => getState api)

/-- Reference-semantics model for the snapshot-stability claim.  A value
returned by a selector is compared by the host framework with
`Object.is`: a value read out of the state compares by the stored
reference, while an object literal evaluated inside the selector
allocates a fresh reference every call, identified here by an
allocation counter. -/
inductive RVal where
  | stored : Option Value → RVal
  | freshRef : Nat → RVal

/-- Selectors as the JavaScript functions consumers write: either a
field projection `s => s.k` (returns the stored reference) or an
object-literal selector `s => ({k: s.k})` (allocates a new object on
every evaluation). -/
inductive JsSelector where
  | fieldSel : String → JsSelector
  | objLit : String → JsSelector

/-- Evaluating a selector against a state object, threading the
allocation counter: object literals allocate. -/
def runSelector (sel : JsSelector) (st : Obj) (alloc : Nat) : RVal × Nat :=
  match sel with
  | .fieldSel k => (.stored (olookup k st), alloc)
  | .objLit _ => (.freshRef alloc, alloc + 1)

/-- One call of the function in the host framework's snapshot slot,
`useCallback(() => storeApi.getSnapshot(selector), [selector])`:
`useCallback` memoizes the thunk itself (per selector reference), not
its result, so every call re-evaluates the selector against the current
state. -/
def snapshotCall (sel : JsSelector) (s : Store) (alloc : Nat) : RVal × Nat :=
  runSelector sel (getState s) alloc

/-- Two consecutive calls of the snapshot function with no intervening
`setState` commit: the second call starts from the allocation counter
the first call left behind. -/
def snapshotCallTwice (sel : JsSelector) (s : Store) (alloc : Nat) :
    RVal × RVal :=
  let (v₁, alloc₁) := snapshotCall sel s alloc
  let (v₂, _) := snapshotCall sel s alloc₁
  (v₁, v₂)

/-- Numeric view of a looked-up field, used to write sample updaters. -/
def numOf : Option Value → Int
  | some (Value.num n) => n
  | _ => 0

/-- The sample updater `s => ({a: s.a + 1})`. -/
def incA : Obj → Except String Obj :=
  fun st => Except.ok [("a", Value.num (numOf (olookup "a" st) + 1))]

/-- An updater that always throws. -/
def throwingUpd : Obj → Except String Obj :=
  fun _ => Except.error ("boom")

/-- Sample store with state `{a:1, b:2}` and no listeners. -/
def storeAB : Store :=
  { state := [("a", Value.num 1), ("b", Value.num 2)], listeners := [] }

/-- Sample store with state `{a:1}` and no listeners. -/
def storeA : Store :=
  { state := [("a", Value.num 1)], listeners := [] }

/-- Sample store with state `{a:1}` and two registered listeners. -/
def storeTwo : Store :=
  { state := [("a", Value.num 1)], listeners := [1, 2] }

end ZustandClone

namespace ZustandClone

theorem olookup_append (k : String) (xs ys : Obj) :
    olookup k (xs ++ ys) = jsOr (olookup k xs) (olookup k ys) := by
  induction xs with
  | nil => simp [olookup, jsOr]
  | cons kv rest ih =>
    obtain ⟨k₁, v⟩ := kv
    by_cases h : k = k₁
    · simp [olookup, h, jsOr]
    · simp [olookup, h, ih]

theorem olookup_mergeLeft (k : String) (a b : Obj) :
    olookup k (a.map (fun kv => (kv.1, (olookup kv.1 b).getD kv.2)))
      = (olookup k a).map (fun v => (olookup k b).getD v) := by
  induction a with
  | nil => simp [olookup]
  | cons kv rest ih =>
    obtain ⟨k₁, v⟩ := kv
    by_cases h : k = k₁
    · subst h
      simp [olookup]
    · simp [olookup, h, ih]

theorem olookup_filterNew (k : String) (a b : Obj) :
    olookup k (b.filter (fun kv => (olookup kv.1 a).isNone))
      = if (olookup k a).isNone then olookup k b else none := by
  induction b with
  | nil => simp [olookup]
  | cons kv rest ih =>
    obtain ⟨k₁, v⟩ := kv
    by_cases hk : k = k₁
    · subst hk
      cases ha : olookup k a with
      | none => simp [List.filter, ha, olookup]
      | some w => simp [List.filter, ha, olookup, ih]
    · cases ha : olookup k₁ a with
      | none => simp [List.filter, ha, olookup, hk, ih]
      | some w => simp [List.filter, ha, olookup, hk, ih]

/-- The shallow-merge law of `{...a, ...b}` at every top-level key: the
merged object binds `k` to `b`'s value when `b` has the key, else to
`a`'s value. -/
theorem olookup_spread (a b : Obj) (k : String) :
    olookup k (spread a b) = jsOr (olookup k b) (olookup k a) := by
  unfold spread
  rw [olookup_append, olookup_mergeLeft, olookup_filterNew]
  cases ha : olookup k a with
  | none =>
    cases hb : olookup k b with
    | none => simp [jsOr]
    | some w => simp [jsOr]
  | some v =>
    cases hb : olookup k b with
    | none => simp [jsOr]
    | some w => simp [jsOr]

theorem notifyTrace_noThrow (st : Obj) (ls : List Nat) :
    notifyTrace (fun _ => false) st ls
      = (ls.map (fun l => Event.invoke l st), false) := by
  induction ls with
  | nil => rfl
  | cons l rest ih => simp [notifyTrace, ih]

theorem invokedIds_map_invoke (st : Obj) (ls : List Nat) :
    invokedIds (ls.map (fun l => Event.invoke l st)) = ls := by
  induction ls with
  | nil => rfl
  | cons l rest ih => simp [invokedIds] at ih ⊢; exact ih

theorem invokedIds_cons_invoke (x : Nat) (ob : Obj) (es : List Event) :
    invokedIds (Event.invoke x ob :: es) = x :: invokedIds es := by
  simp [invokedIds]

theorem notifyTrace_cons (thr : Nat → Bool) (st : Obj) (x : Nat)
    (rest : List Nat) :
    notifyTrace thr st (x :: rest)
      = if thr x then ([Event.invoke x st], true)
        else (Event.invoke x st :: (notifyTrace thr st rest).1,
              (notifyTrace thr st rest).2) := by
  cases hnt : notifyTrace thr st rest with
  | mk es err => by_cases hx : thr x <;> simp [notifyTrace, hx, hnt]

theorem mem_invokedIds_notifyTrace (thr : Nat → Bool) (st : Obj)
    (ls : List Nat) (l : Nat) :
    l ∈ invokedIds (notifyTrace thr st ls).1 → l ∈ ls := by
  induction ls with
  | nil => simp [notifyTrace, invokedIds]
  | cons x rest ih =>
    rw [notifyTrace_cons]
    by_cases hx : thr x
    · simp [hx, invokedIds]
      intro h
      exact Or.inl h
    · simp only [hx, Bool.false_eq_true, if_false, invokedIds_cons_invoke]
      intro h
      rcases List.mem_cons.mp h with h | h
      · exact List.mem_cons.mpr (Or.inl h)
      · exact List.mem_cons.mpr (Or.inr (ih h))

theorem invoke_mem_notifyTrace (thr : Nat → Bool) (st : Obj)
    (ls : List Nat) (l : Nat) (ob : Obj) :
    Event.invoke l ob ∈ (notifyTrace thr st ls).1 → ob = st := by
  induction ls with
  | nil => simp [notifyTrace]
  | cons x rest ih =>
    rw [notifyTrace_cons]
    by_cases hx : thr x
    · simp [hx]
    · simp only [hx, Bool.false_eq_true, if_false]
      intro h
      rcases List.mem_cons.mp h with h | h
      · cases h
        rfl
      · exact ih h

theorem invokedIds_cons_commit (st : Obj) (es : List Event) :
    invokedIds (Event.commit st :: es) = invokedIds es := by
  simp [invokedIds]

theorem setState_ok (u : Update) (thr : Nat → Bool) (s : Store) (st : Obj)
    (h : applyUpdate u s.state = Except.ok st) :
    setState u thr s
      = ({ s with state := st },
         Event.commit st :: (notifyTrace thr st s.listeners).1,
         (notifyTrace thr st s.listeners).2) := by
  cases hnt : notifyTrace thr st s.listeners with
  | mk es err => simp [setState, h, hnt]

theorem setState_fst_state (u : Update) (thr : Nat → Bool) (s : Store)
    (st : Obj) (h : applyUpdate u s.state = Except.ok st) :
    (setState u thr s).1.state = st := by
  rw [setState_ok u thr s st h]

theorem setState_error (u : Update) (thr : Nat → Bool) (s : Store)
    (e : String) (h : applyUpdate u s.state = Except.error e) :
    setState u thr s = (s, [], true) := by
  simp [setState, h]

end ZustandClone

namespace ZustandClone

/-- C1: `setState(update)` applies the documented merge algorithm: a
callable argument is invoked with the current state to obtain the
fields to merge, otherwise the argument itself supplies them; those
top-level fields are shallow-merged onto the current state (a merged
key takes the update's value, every other key keeps its stored value);
concretely, from `{a:1,b:2}`, `setState({a:3})` yields `{a:3,b:2}` with
`b`'s stored value unchanged; from `{a:1}`, `setState(s => ({a:s.a+1}))`
yields `{a:2}`; and a nested object is replaced wholesale, never
deep-merged. -/
theorem c1_shallow_merge_algorithm :
    (∀ (s : Store) (p : Obj) (thr : Nat → Bool),
        (setState (Update.value p) thr s).1.state = spread s.state p)
    ∧ (∀ (s : Store) (f : Obj → Except String Obj) (p : Obj) (thr : Nat → Bool),
        f s.state = Except.ok p →
        (setState (Update.fn f) thr s).1.state = spread s.state p)
    ∧ (∀ (a b : Obj) (k : String),
        olookup k (spread a b) = jsOr (olookup k b) (olookup k a))
    ∧ (setState (Update.value [("a", Value.num 3)]) (fun _ => false) storeAB).1.state
        = [("a", Value.num 3), ("b", Value.num 2)]
    ∧ olookup "b" (setState (Update.value [("a", Value.num 3)]) (fun _ => false) storeAB).1.state
        = olookup "b" storeAB.state
    ∧ (setState (Update.fn incA) (fun _ => false) storeA).1.state
        = [("a", Value.num 2)]
    ∧ olookup "a" (spread [("a", Value.vobj [("x", Value.num 1), ("y", Value.num 2)])]
          [("a", Value.vobj [("x", Value.num 9)])])
        = some (Value.vobj [("x", Value.num 9)]) := by
  refine ⟨?_, ?_, ?_, ?_, ?_, ?_, ?_⟩
  · intro s p thr
    exact setState_fst_state _ _ _ _ rfl
  · intro s f p thr h
    exact setState_fst_state _ _ _ _ (by simp [applyUpdate, h])
  · intro a b k
    exact olookup_spread a b k
  · rfl
  · rfl
  · rfl
  · rfl

/-- Witness for C1 at the functional update `s => ({a: s.a+1})` on state
`{a:1}`. -/
theorem c1_shallow_merge_algorithm_witness :
    (setState (Update.fn incA) (fun _ => false) storeA).1.state
      = spread storeA.state [("a", Value.num 2)] :=
  c1_shallow_merge_algorithm.2.1 storeA incA [("a", Value.num 2)]
    (fun _ => false) rfl

/-- C2: when the updater function throws on the current state,
`setState` leaves the store unchanged (so `getState` still returns the
prior state), invokes no listener, and propagates the error to the
caller. -/
theorem c2_updater_throw (s : Store) (f : Obj → Except String Obj)
    (e : String) (thr : Nat → Bool) (h : f s.state = Except.error e) :
    setState (Update.fn f) thr s = (s, [], true) :=
  setState_error (Update.fn f) thr s e (by simp [applyUpdate, h])

/-- Witness for C2 at an always-throwing updater on a store with two
listeners. -/
theorem c2_updater_throw_witness :
    setState (Update.fn throwingUpd) (fun _ => false) storeTwo
      = (storeTwo, [], true) :=
  c2_updater_throw storeTwo throwingUpd ("boom") (fun _ => false) rfl

/-- C3: invoking the returned hook with a selector returns the selector
applied to the current state; in the optional-selector variant,
invoking it without a selector returns the whole current state. -/
theorem c3_hook_selector_reads :
    (∀ (U : Type) (api : Store) (sel : Obj → U),
        useStore api sel = sel (getState api))
    ∧ (∀ (api : Store) (f : Obj → Obj),
        useStoreOpt api (some f) = f (getState api))
    ∧ (∀ api : Store, useStoreOpt api none = getState api) :=
  ⟨fun _ _ _ => rfl, fun _ _ => rfl, fun _ => rfl⟩

theorem notifyTrace_noThrow_mem (thr : Nat → Bool) (st : Obj)
    (ls : List Nat) (h : ∀ l ∈ ls, thr l = false) :
    notifyTrace thr st ls = (ls.map (fun l => Event.invoke l st), false) := by
  induction ls with
  | nil => rfl
  | cons x rest ih =>
    have hx := h x (List.mem_cons_self x rest)
    rw [notifyTrace_cons, hx,
        ih (fun l hl => h l (List.mem_cons_of_mem x hl))]
    simp

/-- C4 as stated is refuted by a listener that throws: on state `{a:1}`
with listeners {1, 2} where listener 1 throws, `setState({b:2})`
commits the merge (the state is no longer the prior one) yet listener 2
is never notified, so neither arm of the claimed all-or-nothing
disjunction holds. -/
theorem c4_counterexample :
    ¬ (((setState (Update.value [("b", Value.num 2)]) (fun l => l == 1) storeTwo).1.state
          = storeTwo.state)
       ∨ (∀ l ∈ storeTwo.listeners,
            l ∈ invokedIds
              (setState (Update.value [("b", Value.num 2)]) (fun l => l == 1) storeTwo).2.1)) := by
  have hst : (setState (Update.value [("b", Value.num 2)]) (fun l => l == 1) storeTwo).1.state
      = [("a", Value.num 1), ("b", Value.num 2)] := rfl
  have htr : (setState (Update.value [("b", Value.num 2)]) (fun l => l == 1) storeTwo).2.1
      = [Event.commit [("a", Value.num 1), ("b", Value.num 2)],
         Event.invoke 1 [("a", Value.num 1), ("b", Value.num 2)]] := rfl
  intro h
  rcases h with h | h
  · rw [hst] at h
    simp [storeTwo] at h
  · have h2 := h 2 (by simp [storeTwo])
    rw [htr] at h2
    simp [invokedIds] at h2

/-- C4 amended: the all-or-nothing guarantee is about the updater: when
the updater throws, the store keeps its prior state, no listener runs
and the error propagates; when the merge executes and no registered
listener throws, the merge commits and every currently-registered
listener is notified.  (A listener that throws leaves the state
committed and stops notification of the listeners after it, which the
counterexample exhibits.) -/
theorem c4_amended_update_atomicity (s : Store) (thr : Nat → Bool) :
    (∀ (f : Obj → Except String Obj) (e : String),
        f s.state = Except.error e →
        setState (Update.fn f) thr s = (s, [], true))
    ∧ (∀ (u : Update) (st : Obj),
        applyUpdate u s.state = Except.ok st →
        (setState u thr s).1.state = st
        ∧ ((∀ l ∈ s.listeners, thr l = false) →
            invokedIds (setState u thr s).2.1 = s.listeners)) := by
  constructor
  · intro f e h
    exact setState_error (Update.fn f) thr s e (by simp [applyUpdate, h])
  · intro u st h
    refine ⟨setState_fst_state u thr s st h, ?_⟩
    intro hnl
    rw [setState_ok u thr s st h]
    rw [notifyTrace_noThrow_mem thr st s.listeners hnl]
    simp [invokedIds_cons_commit, invokedIds_map_invoke]

/-- Witness for the amended C4: both arms at concrete inputs on the
two-listener store. -/
theorem c4_amended_update_atomicity_witness :
    setState (Update.fn throwingUpd) (fun _ => false) storeTwo
      = (storeTwo, [], true)
    ∧ invokedIds (setState (Update.value [("b", Value.num 2)]) (fun _ => false) storeTwo).2.1
        = storeTwo.listeners :=
  ⟨(c4_amended_update_atomicity storeTwo (fun _ => false)).1 throwingUpd ("boom") rfl,
   ((c4_amended_update_atomicity storeTwo (fun _ => false)).2
      (Update.value [("b", Value.num 2)])
      [("a", Value.num 1), ("b", Value.num 2)] rfl).2 (fun _ _ => rfl)⟩

/-- C5: a `setState` call whose merge executes invokes each of the
currently-registered listeners exactly once — also when the merged
value is value-equal to the prior state; there is no equality-based
skipping of notifications. -/
theorem c5_each_listener_once (s : Store) (u : Update) (st : Obj)
    (hnd : s.listeners.Nodup) (h : applyUpdate u s.state = Except.ok st) :
    invokedIds (setState u (fun _ => false) s).2.1 = s.listeners
    ∧ ∀ l ∈ s.listeners,
        (invokedIds (setState u (fun _ => false) s).2.1).count l = 1 := by
  have hids : invokedIds (setState u (fun _ => false) s).2.1 = s.listeners := by
    rw [setState_ok u (fun _ => false) s st h, notifyTrace_noThrow]
    simp [invokedIds_cons_commit, invokedIds_map_invoke]
  refine ⟨hids, ?_⟩
  intro l hl
  rw [hids]
  exact List.count_eq_one_of_mem hnd hl

/-- Witness for C5 at a merge that is value-equal to the prior state
(`set({})` on `{a:1}` with listeners {1, 2}). -/
theorem c5_each_listener_once_witness :
    invokedIds (setState (Update.value []) (fun _ => false) storeTwo).2.1
        = storeTwo.listeners
    ∧ ∀ l ∈ storeTwo.listeners,
        (invokedIds (setState (Update.value []) (fun _ => false) storeTwo).2.1).count l = 1 :=
  c5_each_listener_once storeTwo (Update.value []) storeTwo.state
    (by decide) rfl

/-- C6: `subscribe` registration is identity-based (registering the same
callback twice yields one registration); the returned unsubscribe
removes exactly that registration, after which `setState` never invokes
that listener again; a second unsubscribe call is a no-op that does not
throw and leaves every other registration untouched. -/
theorem c6_subscribe_unsubscribe (s : Store) (l m : Nat) :
    subscribe l (subscribe l s) = subscribe l s
    ∧ l ∉ (unsubscribe l s).listeners
    ∧ (∀ (u : Update) (thr : Nat → Bool),
        l ∉ invokedIds (setState u thr (unsubscribe l s)).2.1)
    ∧ unsubscribe l (unsubscribe l s) = unsubscribe l s
    ∧ (m ≠ l → ((m ∈ (unsubscribe l s).listeners) ↔ m ∈ s.listeners)) := by
  have hnot : l ∉ (unsubscribe l s).listeners := by
    simp [unsubscribe, List.mem_filter]
  refine ⟨?_, hnot, ?_, ?_, ?_⟩
  · by_cases h : l ∈ s.listeners
    · simp [subscribe, h]
    · simp [subscribe, h]
  · intro u thr hmem
    cases hap : applyUpdate u (unsubscribe l s).state with
    | error e =>
      rw [setState_error u thr (unsubscribe l s) e hap] at hmem
      simp [invokedIds] at hmem
    | ok st =>
      rw [setState_ok u thr (unsubscribe l s) st hap] at hmem
      simp only [invokedIds_cons_commit] at hmem
      exact hnot (mem_invokedIds_notifyTrace thr st _ l hmem)
  · simp [unsubscribe, List.filter_filter]
  · intro hml
    simp [unsubscribe, List.mem_filter, hml]

/-- Witness for C6 on the two-listener store, unsubscribing listener 1
and checking listener 2 is unaffected. -/
theorem c6_subscribe_unsubscribe_witness :
    subscribe 1 (subscribe 1 storeTwo) = subscribe 1 storeTwo
    ∧ (1 : Nat) ∉ (unsubscribe 1 storeTwo).listeners
    ∧ unsubscribe 1 (unsubscribe 1 storeTwo) = unsubscribe 1 storeTwo
    ∧ ((2 ∈ (unsubscribe 1 storeTwo).listeners) ↔ 2 ∈ storeTwo.listeners) :=
  ⟨(c6_subscribe_unsubscribe storeTwo 1 2).1,
   (c6_subscribe_unsubscribe storeTwo 1 2).2.1,
   (c6_subscribe_unsubscribe storeTwo 1 2).2.2.2.1,
   (c6_subscribe_unsubscribe storeTwo 1 2).2.2.2.2 (by decide)⟩

/-- C7 as stated is refuted by a selector that allocates: for the
object-literal selector `s => ({a: s.a})`, two calls to the snapshot
function with no intervening `setState` commit return two distinct
fresh references, which `Object.is` — the host framework's default
equality, modelled by equality of `RVal` — distinguishes.  `useCallback`
memoizes the snapshot thunk per selector, not the selector's
evaluation, so nothing caches the returned value. -/
theorem c7_counterexample :
    ¬ ((snapshotCallTwice (JsSelector.objLit "a") storeA 0).1
        = (snapshotCallTwice (JsSelector.objLit "a") storeA 0).2) := by
  simp [snapshotCallTwice, snapshotCall, runSelector]

/-- C7 amended: the snapshot slot holds the thunk
`() => storeApi.getSnapshot(selector)`, whose identity `useCallback`
caches per selector while its result is re-evaluated on every call; two
calls with no intervening commit therefore return values the host
framework considers equal exactly when the selector returns a stored
reference instead of allocating — in particular every field-projection
selector is referentially stable across the two calls. -/
theorem c7_amended_snapshot_stability (k : String) (s : Store) (alloc : Nat) :
    snapshotCall (JsSelector.fieldSel k) s alloc
        = runSelector (JsSelector.fieldSel k) (getState s) alloc
    ∧ (snapshotCallTwice (JsSelector.fieldSel k) s alloc).1
        = (snapshotCallTwice (JsSelector.fieldSel k) s alloc).2 :=
  ⟨rfl, rfl⟩

/-- C8: when the initializer throws, the factory call itself throws
synchronously: `createStoreApi` and `create` propagate the error, and
no store value is produced. -/
theorem c8_init_throw_no_store (init : InitProg) (e : String)
    (h : runInit init emptyObj = Except.error e) :
    createStoreApi init = Except.error e
    ∧ create init = Except.error e := by
  constructor
  · simp [createStoreApi, h]
  · simp [create, createStoreApi, h]

/-- Witness for C8 at an initializer that throws immediately. -/
theorem c8_init_throw_no_store_witness :
    createStoreApi (InitProg.fail ("boom")) = Except.error ("boom")
    ∧ create (InitProg.fail ("boom")) = Except.error ("boom") :=
  c8_init_throw_no_store (InitProg.fail ("boom")) ("boom") rfl

/-- C9: `setState` is synchronous: when the merge executes, the commit
of the new state is the first event of the call — notification happens
inline, strictly after it — every listener invocation in the call
observes the newly merged state through `getState`, and once the call
returns `getState` yields the just-committed value. -/
theorem c9_synchronous_commit (s : Store) (u : Update) (st : Obj)
    (thr : Nat → Bool) (h : applyUpdate u s.state = Except.ok st) :
    getState (setState u thr s).1 = st
    ∧ (setState u thr s).2.1.head? = some (Event.commit st)
    ∧ (∀ (l : Nat) (ob : Obj),
        Event.invoke l ob ∈ (setState u thr s).2.1 → ob = st) := by
  rw [setState_ok u thr s st h]
  refine ⟨rfl, rfl, ?_⟩
  intro l ob hmem
  rcases List.mem_cons.mp hmem with hc | hmem
  · simp at hc
  · exact invoke_mem_notifyTrace thr st s.listeners l ob hmem

/-- Witness for C9 at `set({b:2})` on the two-listener store. -/
theorem c9_synchronous_commit_witness :
    getState (setState (Update.value [("b", Value.num 2)]) (fun _ => false) storeTwo).1
        = [("a", Value.num 1), ("b", Value.num 2)]
    ∧ (setState (Update.value [("b", Value.num 2)]) (fun _ => false) storeTwo).2.1.head?
        = some (Event.commit [("a", Value.num 1), ("b", Value.num 2)])
    ∧ (∀ (l : Nat) (ob : Obj),
        Event.invoke l ob
            ∈ (setState (Update.value [("b", Value.num 2)]) (fun _ => false) storeTwo).2.1
          → ob = [("a", Value.num 1), ("b", Value.num 2)]) :=
  c9_synchronous_commit storeTwo (Update.value [("b", Value.num 2)])
    [("a", Value.num 1), ("b", Value.num 2)] (fun _ => false) rfl

/-- C10: the state after the factory returns is exactly the
initializer's return value — the cell contents left by the
initializer's own `set` calls are discarded by the final assignment —
and a `get()` performed first inside the initializer observes the empty
placeholder object, not the eventual initial state. -/
theorem c10_init_return_wins (init : InitProg) (cell ret : Obj)
    (f : Obj → InitProg)
    (h : runInit init emptyObj = Except.ok (cell, ret)) :
    createStoreApi init = Except.ok { state := ret, listeners := [] }
    ∧ runInit (InitProg.getCall f) emptyObj = runInit (f emptyObj) emptyObj := by
  constructor
  · simp [createStoreApi, h]
  · rfl

/-- Witness for C10: an initializer that first runs `set({a:5})` and
then returns `{b:7}` yields a store whose state is exactly `{b:7}`, and
the continuation of a leading `get()` receives the empty object. -/
theorem c10_init_return_wins_witness :
    createStoreApi (InitProg.setCall (Update.value [("a", Value.num 5)])
        (InitProg.ret [("b", Value.num 7)]))
      = Except.ok { state := [("b", Value.num 7)], listeners := [] }
    ∧ runInit (InitProg.getCall InitProg.ret) emptyObj
        = runInit (InitProg.ret emptyObj) emptyObj :=
  c10_init_return_wins
    (InitProg.setCall (Update.value [("a", Value.num 5)])
      (InitProg.ret [("b", Value.num 7)]))
    [("a", Value.num 5)] [("b", Value.num 7)] InitProg.ret rfl

end ZustandClone
